import Mathlib

/-!
Shallow embedding of the DuoVerse Flask application (src/app.py).

The application is a CRUD web backend over five SQLAlchemy tables
(Meeting, Message, JoinRequest, GalleryImage, YouTubeSession).  Each HTTP
handler is modelled as a pure function from a database state `DB` (plus the
request parameters and the nondeterministic inputs the handler draws from
its environment: the current clock, freshly generated uuid strings, and
whether the QR image library raises) to a pair of the new database state
and a response record.  Autoincrement primary keys are modelled by per-table
counters in `DB`.  SQLAlchemy `filter_by(...).first()` is `List.find?` over
the table in insertion order, `query.get(pk)` is `find?` on the primary-key
column, `order_by` is a sort, and bulk `update()` is a `List.map` guarded by
the filter predicate.
-/

namespace DuoVerse

/-- The shared gallery password constant (src/app.py line 212). -/
def HARDCODED_PASSWORD : String := "16092008"

/-- A naive Python `datetime` value.  Comparison of valid naive datetimes is
lexicographic on the components. -/
structure DateTime where
  year : Nat
  month : Nat
  day : Nat
  hour : Nat
  minute : Nat
  second : Nat
  micro : Nat
deriving DecidableEq, Repr

/-- `a <= b` on naive datetimes (Python datetime comparison). -/
def DateTime.leb (a b : DateTime) : Bool :=
  if a.year ≠ b.year then a.year < b.year
  else if a.month ≠ b.month then a.month < b.month
  else if a.day ≠ b.day then a.day < b.day
  else if a.hour ≠ b.hour then a.hour < b.hour
  else if a.minute ≠ b.minute then a.minute < b.minute
  else if a.second ≠ b.second then a.second < b.second
  else a.micro ≤ b.micro

/-- Maximal leading run of decimal digits of a character list, with the rest. -/
def splitDigits : List Char → List Char × List Char
  | [] => ([], [])
  | c :: rest =>
    if c.isDigit then
      let (d, r) := splitDigits rest
      (c :: d, r)
    else ([], c :: rest)

/-- Decimal value of a digit list. -/
def digitsToNat (l : List Char) : Nat :=
  l.foldl (fun acc c => acc * 10 + (c.toNat - 48)) 0

/-- Read a number whose digit run has length in `[minL, maxL]`; the field
patterns of CPython strptime (`%Y` is 4 digits, `%m`/`%d`/`%H`/`%M` are 1-2
digits) are each followed by a non-digit literal or the end of the string, so
greedy regex matching consumes exactly the maximal digit run. -/
def readNum (minL maxL : Nat) (s : List Char) : Option (Nat × List Char) :=
  let (d, r) := splitDigits s
  if minL ≤ d.length && d.length ≤ maxL then some (digitsToNat d, r) else none

/-- Consume one expected literal character. -/
def expectChar (c : Char) : List Char → Option (List Char)
  | [] => none
  | x :: rest => if x = c then some rest else none

def isLeapYear (y : Nat) : Bool := (y % 4 == 0 && y % 100 != 0) || y % 400 == 0

def daysInMonth (y m : Nat) : Nat :=
  if m = 2 then (if isLeapYear y then 29 else 28)
  else if m = 4 || m = 6 || m = 9 || m = 11 then 30
  else 31

/-- `datetime.strptime(f"{date} {time}", "%Y-%m-%d %H:%M")`: parse the
concatenated string, requiring it to be fully consumed and the fields to be
in the ranges the `datetime` constructor accepts; `ValueError` is `none`.
Unset fields (seconds, microseconds) default to 0. -/
def parseMeetingDateTime (date time : String) : Option DateTime := do
  let s := (date ++ " " ++ time).toList
  let (y, s) ← readNum 4 4 s
  let s ← expectChar '-' s
  let (mo, s) ← readNum 1 2 s
  let s ← expectChar '-' s
  let (d, s) ← readNum 1 2 s
  let s ← expectChar ' ' s
  let (h, s) ← readNum 1 2 s
  let s ← expectChar ':' s
  let (mi, s) ← readNum 1 2 s
  if s.isEmpty && 1 ≤ y && 1 ≤ mo && mo ≤ 12 && 1 ≤ d && d ≤ daysInMonth y mo
      && h ≤ 23 && mi ≤ 59 then
    some ⟨y, mo, d, h, mi, 0, 0⟩
  else
    none

/-! ### Table rows (src/app.py lines 220-263).
`DateTime` columns that the claims never compare (`created_at`, `timestamp`,
`updated_at`, playlist `added_at`) are abstracted to `Nat` ticks supplied by
the caller; the scheduled date/time of a meeting is kept as the two raw
strings exactly as stored. -/

structure Meeting where
  id : Nat
  room_id : String
  title : String
  description : String
  date : String
  time : String
  gallery_password : String
  is_active : Bool
  qr_code_path : Option String
  created_at : Nat
deriving DecidableEq, Repr

structure Message where
  id : Nat
  meeting_id : Nat
  sender : String
  message : String
  is_image : Bool
  timestamp : Nat
deriving DecidableEq, Repr

structure JoinRequest where
  id : Nat
  meeting_id : Nat
  requester : String
  status : String
  timestamp : Nat
  updated_at : Nat
deriving DecidableEq, Repr

structure GalleryImage where
  id : Nat
  meeting_id : Nat
  image_path : String
  created_at : Nat
deriving DecidableEq, Repr

/-- One entry of the JSON-encoded playlist column; the column stores
`json.dumps` of a list of objects, modelled as the list itself. -/
structure PlaylistEntry where
  id : Option String
  title : String
  added_at : Nat
deriving DecidableEq, Repr

structure YouTubeSession where
  id : Nat
  meeting_id : Nat
  video_id : Option String
  video_title : Option String
  is_playing : Bool
  current_time : Rat
  volume : Int
  playlist : List PlaylistEntry
deriving DecidableEq, Repr

/-- The database: one list per table in insertion (primary-key) order, plus
the autoincrement counter of each table. -/
structure DB where
  meetings : List Meeting
  messages : List Message
  join_requests : List JoinRequest
  gallery_images : List GalleryImage
  yt_sessions : List YouTubeSession
  next_meeting_id : Nat
  next_message_id : Nat
  next_join_request_id : Nat
  next_gallery_image_id : Nat
  next_yt_session_id : Nat
deriving DecidableEq, Repr

/-- `Meeting.query.filter_by(room_id=room_id).first()`. -/
def findMeeting (db : DB) (room_id : String) : Option Meeting :=
  db.meetings.find? (fun m => m.room_id == room_id)

/-- `YouTubeSession.query.filter_by(meeting_id=meeting_id).first()`. -/
def findSession (db : DB) (meeting_id : Nat) : Option YouTubeSession :=
  db.yt_sessions.find? (fun s => s.meeting_id == meeting_id)

/-- Mutate the single row returned by a `.first()` query: update the first
element satisfying `p`, leave the rest alone. -/
def updateFirst (p : α → Bool) (f : α → α) : List α → List α
  | [] => []
  | x :: rest => if p x then f x :: rest else x :: updateFirst p f rest

/-- Delete the single row returned by a `.first()` query. -/
def removeFirst (p : α → Bool) : List α → List α
  | [] => []
  | x :: rest => if p x then rest else x :: removeFirst p rest

/-- `is_meeting_started` (src/app.py lines 1373-1378): parse the stored
date/time strings; on parse failure the `except` branch returns False,
otherwise compare `datetime.now() >= meeting_datetime`. -/
def is_meeting_started (m : Meeting) (now : DateTime) : Bool :=
  match parseMeetingDateTime m.date m.time with
  | some dt => DateTime.leb dt now
  | none => false

/-! ### QR generation (src/app.py lines 292-410).
The two generators only touch the image library and the filesystem; the
database is untouched.  Whether each generator raises is an environment
fact, modelled by two flags; the filename each one produces on success is
kept (title/date/time only affect the drawn pixels). -/

structure QrEnv where
  styled_fails : Bool
  simple_fails : Bool
deriving DecidableEq, Repr

structure QrResult where
  success : Bool
  path : Option String
  error : Option String
deriving DecidableEq, Repr

/-- `generate_simple_qr` (lines 377-410): plain generator; on an exception it
reports failure with the error string. -/
def generate_simple_qr (env : QrEnv) (room_id : String) : QrResult :=
  if env.simple_fails then ⟨false, none, some "qr library failure"⟩
  else ⟨true, some ("qrcodes/qr_simple_" ++ room_id ++ ".png"), none⟩

/-- `generate_meeting_qr` (lines 292-375): styled generator; any exception in
the styled path falls back to `generate_simple_qr`.  `qr_ts` is the
`datetime.now().strftime(...)` filename component. -/
def generate_meeting_qr (env : QrEnv) (room_id : String) (qr_ts : String) : QrResult :=
  if env.styled_fails then generate_simple_qr env room_id
  else ⟨true, some ("qrcodes/qr_" ++ room_id ++ "_" ++ qr_ts ++ ".png"), none⟩

/-! ### JSON response records.  Each record keeps the HTTP status code and
the fields of the `jsonify` body that the claims mention. -/

structure SimpleResp where
  http : Nat
  success : Bool
  error : Option String
deriving DecidableEq, Repr

structure CreateMeetingResp where
  http : Nat
  room_id : String
  qr_generated : Bool
  qr_path : Option String
deriving DecidableEq, Repr

structure CreateJoinReqResp where
  http : Nat
  error : Option String
  request_id : Option Nat
  requester_id : Option String
deriving DecidableEq, Repr

structure JoinStatusResp where
  http : Nat
  error : Option String
  status : Option String
  request_id : Option Nat
deriving DecidableEq, Repr

/-- `count` is the `accepted_count` (resp. `rejected_count`) field of the
batch-accept (resp. batch-reject) response body. -/
structure BatchResp where
  http : Nat
  error : Option String
  count : Option Nat
deriving DecidableEq, Repr

structure MessagesResp where
  http : Nat
  error : Option String
  messages : List Message
deriving DecidableEq, Repr

structure SendMessageResp where
  http : Nat
  error : Option String
  message_id : Option Nat
deriving DecidableEq, Repr

structure GalleryResp where
  http : Nat
  error : Option String
  images : List GalleryImage
deriving DecidableEq, Repr

structure EndMeetingResp where
  http : Nat
  success : Bool
deriving DecidableEq, Repr

structure CheckActiveResp where
  http : Nat
  error : Option String
  is_active : Option Bool
deriving DecidableEq, Repr

/-! ### Handlers.  Each takes the database, the request parameters, and the
handler's nondeterministic inputs (clock values `now`/`ts`, fresh uuid
strings, the QR environment), and returns the committed database and the
response. -/

/-- `create_meeting` (lines 550-583): insert the meeting (active by default,
password forced to the shared constant), then generate the QR and, on
success, attach its path; the endpoint returns 200 either way.  The two
commits collapse into the final row value.  `new_room_id` is the fresh
`uuid.uuid4()` token. -/
def create_meeting (db : DB) (title description date time : String)
    (new_room_id : String) (env : QrEnv) (qr_ts : String) (ts : Nat) :
    DB × CreateMeetingResp :=
  let qr := generate_meeting_qr env new_room_id qr_ts
  let mtg : Meeting :=
    ⟨db.next_meeting_id, new_room_id, title, description, date, time,
     HARDCODED_PASSWORD, true, if qr.success then qr.path else none, ts⟩
  ({ db with meetings := db.meetings ++ [mtg],
             next_meeting_id := db.next_meeting_id + 1 },
   ⟨200, new_room_id, qr.success, if qr.success then qr.path else none⟩)

/-- `api_generate_qr` (lines 421-451): regenerate the QR for an existing
meeting; on success store the new path on the meeting row. -/
def api_generate_qr (db : DB) (room_id : String) (env : QrEnv) (qr_ts : String) :
    DB × SimpleResp :=
  match findMeeting db room_id with
  | none => (db, ⟨404, false, some "Meeting not found"⟩)
  | some _ =>
    let qr := generate_meeting_qr env room_id qr_ts
    if qr.success then
      let ms := updateFirst (fun m => m.room_id == room_id)
        (fun m => { m with qr_code_path := qr.path }) db.meetings
      ({ db with meetings := ms }, ⟨200, true, none⟩)
    else (db, ⟨500, false, qr.error⟩)

/-- `meeting_links` page (lines 585-633): serves HTML, but if the stored QR
is absent or its file fails to load (`cached_qr_loads`), it regenerates the
QR and commits the new path on success. -/
def meeting_links (db : DB) (room_id : String) (env : QrEnv) (qr_ts : String)
    (cached_qr_loads : Bool) : DB × SimpleResp :=
  match findMeeting db room_id with
  | none => (db, ⟨404, false, none⟩)
  | some m =>
    if m.qr_code_path.isSome && cached_qr_loads then (db, ⟨200, true, none⟩)
    else
      let qr := generate_meeting_qr env room_id qr_ts
      if qr.success then
        let ms := updateFirst (fun mm => mm.room_id == room_id)
          (fun mm => { mm with qr_code_path := qr.path }) db.meetings
        ({ db with meetings := ms }, ⟨200, true, none⟩)
      else (db, ⟨200, true, none⟩)

/-- `create_join_request` (lines 862-896): 404 unknown room, 400 if the
meeting is inactive, 400 if it has not started; otherwise insert a fresh
pending request for a fresh uuid requester and return 201. -/
def create_join_request (db : DB) (room_id : String) (now : DateTime)
    (new_requester : String) (ts : Nat) : DB × CreateJoinReqResp :=
  match findMeeting db room_id with
  | none => (db, ⟨404, some "Meeting not found", none, none⟩)
  | some meeting =>
    if meeting.is_active = false then
      (db, ⟨400, some "Meeting is not active", none, none⟩)
    else if is_meeting_started meeting now = false then
      (db, ⟨400, some "Meeting has not started yet", none, none⟩)
    else
      let jr : JoinRequest :=
        ⟨db.next_join_request_id, meeting.id, new_requester, "pending", ts, ts⟩
      ({ db with join_requests := db.join_requests ++ [jr],
                 next_join_request_id := db.next_join_request_id + 1 },
       ⟨201, none, some jr.id, some new_requester⟩)

/-- `handle_join_request` (lines 920-938): `JoinRequest.query.get(request_id)`
fetches by primary key (unique, so mutating the fetched object is the map
over the id-filtered rows); `accept`/`reject` set the status and
`updated_at`, anything else is a 400. -/
def handle_join_request (db : DB) (request_id : Nat) (action : String) (ts : Nat) :
    DB × SimpleResp :=
  match db.join_requests.find? (fun r => r.id == request_id) with
  | none => (db, ⟨404, false, some "Request not found"⟩)
  | some _ =>
    if action == "accept" || action == "reject" then
      let jrs := db.join_requests.map (fun r =>
        if r.id == request_id then
          { r with status := if action == "accept" then "accepted" else "rejected",
                   updated_at := ts }
        else r)
      ({ db with join_requests := jrs }, ⟨200, true, none⟩)
    else
      (db, ⟨400, false, some "Invalid action"⟩)

/-- `get_join_request_status` (lines 940-966): read-only; `requester_id` is
the optional query parameter. -/
def get_join_request_status (db : DB) (room_id : String)
    (requester_id : Option String) : JoinStatusResp :=
  match findMeeting db room_id with
  | none => ⟨404, some "Meeting not found", none, none⟩
  | some meeting =>
    match requester_id with
    | none => ⟨200, none, some "none", none⟩
    | some rq =>
      match db.join_requests.find?
          (fun r => r.meeting_id == meeting.id && r.requester == rq) with
      | some jr => ⟨200, none, some jr.status, some jr.id⟩
      | none => ⟨200, none, some "none", none⟩

/-- `batch_accept_requests` (lines 769-794): bulk update of the rows of this
meeting whose id is in the submitted list; `accepted_count` is the length of
the submitted list, not of the matched rows. -/
def batch_accept_requests (db : DB) (room_id : String) (request_ids : List Nat)
    (ts : Nat) : DB × BatchResp :=
  match findMeeting db room_id with
  | none => (db, ⟨404, some "Meeting not found", none⟩)
  | some meeting =>
    if request_ids.isEmpty then (db, ⟨400, some "No request IDs provided", none⟩)
    else
      let jrs := db.join_requests.map (fun r =>
        if request_ids.contains r.id && r.meeting_id == meeting.id then
          { r with status := "accepted", updated_at := ts }
        else r)
      ({ db with join_requests := jrs }, ⟨200, none, some request_ids.length⟩)

/-- `batch_reject_requests` (lines 796-821): same shape with status
`rejected`. -/
def batch_reject_requests (db : DB) (room_id : String) (request_ids : List Nat)
    (ts : Nat) : DB × BatchResp :=
  match findMeeting db room_id with
  | none => (db, ⟨404, some "Meeting not found", none⟩)
  | some meeting =>
    if request_ids.isEmpty then (db, ⟨400, some "No request IDs provided", none⟩)
    else
      let jrs := db.join_requests.map (fun r =>
        if request_ids.contains r.id && r.meeting_id == meeting.id then
          { r with status := "rejected", updated_at := ts }
        else r)
      ({ db with join_requests := jrs }, ⟨200, none, some request_ids.length⟩)

/-- `clear_rejected_requests` (lines 722-741): bulk delete of this meeting's
rows with status `rejected`. -/
def clear_rejected_requests (db : DB) (room_id : String) : DB × SimpleResp :=
  match findMeeting db room_id with
  | none => (db, ⟨404, false, some "Meeting not found"⟩)
  | some meeting =>
    let jrs := db.join_requests.filter
      (fun r => !(r.meeting_id == meeting.id && r.status == "rejected"))
    ({ db with join_requests := jrs }, ⟨200, true, none⟩)

/-- `clear_rejected_request` (lines 992-1018): delete the first row of this
meeting with the given requester and status `rejected`, if any; the endpoint
reports success either way. -/
def clear_rejected_request (db : DB) (room_id : String)
    (requester_id : Option String) : DB × SimpleResp :=
  match findMeeting db room_id with
  | none => (db, ⟨404, false, some "Meeting not found"⟩)
  | some meeting =>
    match requester_id with
    | none => (db, ⟨400, false, some "Requester ID required"⟩)
    | some rq =>
      match db.join_requests.find? (fun r =>
          r.meeting_id == meeting.id && r.requester == rq && r.status == "rejected") with
      | some _ =>
        let jrs := removeFirst (fun r =>
          r.meeting_id == meeting.id && r.requester == rq && r.status == "rejected")
          db.join_requests
        ({ db with join_requests := jrs }, ⟨200, true, none⟩)
      | none => (db, ⟨200, true, none⟩)

/-- `order_by(Message.timestamp.asc())`. -/
def sortByTimestampAsc (l : List Message) : List Message :=
  List.insertionSort (fun a b => a.timestamp ≤ b.timestamp) l

/-- `get_messages` (lines 1213-1231): read-only; rows of this meeting with
id strictly above `since` (the query parameter, defaulting to 0), ordered by
timestamp ascending. -/
def get_messages (db : DB) (room_id : String) (since : Nat) : MessagesResp :=
  match findMeeting db room_id with
  | none => ⟨404, some "Meeting not found", []⟩
  | some meeting =>
    ⟨200, none, sortByTimestampAsc (db.messages.filter
        (fun msg => msg.meeting_id == meeting.id && since < msg.id))⟩

/-- `send_message` (lines 1233-1250): append one message row. -/
def send_message (db : DB) (room_id : String) (sender text : String)
    (is_image : Bool) (ts : Nat) : DB × SendMessageResp :=
  match findMeeting db room_id with
  | none => (db, ⟨404, some "Meeting not found", none⟩)
  | some meeting =>
    let msg : Message := ⟨db.next_message_id, meeting.id, sender, text, is_image, ts⟩
    ({ db with messages := db.messages ++ [msg],
               next_message_id := db.next_message_id + 1 },
     ⟨200, none, some msg.id⟩)

/-- `upload_image` (lines 1254-1293): the early 400 returns (no file part,
empty filename) touch no state; on the write path one gallery row is
inserted with the per-room path. -/
def upload_image (db : DB) (room_id : String) (filename : String) (ts : Nat) :
    DB × SimpleResp :=
  match findMeeting db room_id with
  | none => (db, ⟨404, false, some "Meeting not found"⟩)
  | some meeting =>
    let img : GalleryImage :=
      ⟨db.next_gallery_image_id, meeting.id,
       "uploads/" ++ room_id ++ "/" ++ filename, ts⟩
    ({ db with gallery_images := db.gallery_images ++ [img],
               next_gallery_image_id := db.next_gallery_image_id + 1 },
     ⟨200, true, none⟩)

/-- `order_by(GalleryImage.created_at.desc())`. -/
def sortByCreatedDesc (l : List GalleryImage) : List GalleryImage :=
  List.insertionSort (fun a b => b.created_at ≤ a.created_at) l

/-- `get_gallery_images` (lines 1295-1311): read-only; the `password` query
parameter (absent is `None`) is compared to the hardcoded constant. -/
def get_gallery_images (db : DB) (room_id : String) (password : Option String) :
    GalleryResp :=
  match findMeeting db room_id with
  | none => ⟨404, some "Meeting not found", []⟩
  | some meeting =>
    if password ≠ some HARDCODED_PASSWORD then ⟨401, some "Invalid password", []⟩
    else
      ⟨200, none, sortByCreatedDesc (db.gallery_images.filter
          (fun i => i.meeting_id == meeting.id))⟩

/-- `delete_image` (lines 1313-1329): `query.get` by unique primary key,
then delete the row (file removal is best-effort and outside the DB). -/
def delete_image (db : DB) (image_id : Nat) : DB × SimpleResp :=
  match db.gallery_images.find? (fun i => i.id == image_id) with
  | none => (db, ⟨404, false, some "Image not found"⟩)
  | some _ =>
    let gis := removeFirst (fun i => i.id == image_id) db.gallery_images
    ({ db with gallery_images := gis }, ⟨200, true, none⟩)

/-- `end_meeting` (lines 1333-1339): no 404 branch; flip `is_active` when the
meeting exists and report success unconditionally. -/
def end_meeting (db : DB) (room_id : String) : DB × EndMeetingResp :=
  match findMeeting db room_id with
  | none => (db, ⟨200, true⟩)
  | some _ =>
    let ms := updateFirst (fun m => m.room_id == room_id)
      (fun m => { m with is_active := false }) db.meetings
    ({ db with meetings := ms }, ⟨200, true⟩)

/-- `check_meeting_active` (lines 1341-1347). -/
def check_meeting_active (db : DB) (room_id : String) : CheckActiveResp :=
  match findMeeting db room_id with
  | none => ⟨404, some "Meeting not found", none⟩
  | some m => ⟨200, none, some m.is_active⟩

/-- `get_youtube_session` (lines 1022-1046): lazily creates the session row
with the column defaults on first access; the body echoes the session
state. -/
def get_youtube_session (db : DB) (room_id : String) : DB × SimpleResp :=
  match findMeeting db room_id with
  | none => (db, ⟨404, false, some "Meeting not found"⟩)
  | some meeting =>
    match findSession db meeting.id with
    | some _ => (db, ⟨200, true, none⟩)
    | none =>
      let fresh : YouTubeSession :=
        ⟨db.next_yt_session_id, meeting.id, none, none, false, 0, 100, []⟩
      ({ db with yt_sessions := db.yt_sessions ++ [fresh],
                 next_yt_session_id := db.next_yt_session_id + 1 },
       ⟨200, true, none⟩)

/-- `youtube_load_video` (lines 1048-1076): get-or-create the session, then
set the video id/title from the request and reset `is_playing`/
`current_time`; volume and playlist are untouched. -/
def youtube_load_video (db : DB) (room_id : String) (video_id : Option String)
    (video_title : String) : DB × SimpleResp :=
  match findMeeting db room_id with
  | none => (db, ⟨404, false, some "Meeting not found"⟩)
  | some meeting =>
    match findSession db meeting.id with
    | some _ =>
      let ss := updateFirst (fun s => s.meeting_id == meeting.id)
        (fun s => { s with video_id := video_id, video_title := some video_title,
                           is_playing := false, current_time := 0 })
        db.yt_sessions
      ({ db with yt_sessions := ss }, ⟨200, true, none⟩)
    | none =>
      let fresh : YouTubeSession :=
        ⟨db.next_yt_session_id, meeting.id, video_id, some video_title,
         false, 0, 100, []⟩
      ({ db with yt_sessions := db.yt_sessions ++ [fresh],
                 next_yt_session_id := db.next_yt_session_id + 1 },
       ⟨200, true, none⟩)

/-- `youtube_play` (lines 1078-1101): mutate only when the session exists. -/
def youtube_play (db : DB) (room_id : String) (is_playing : Bool)
    (current_time : Rat) : DB × SimpleResp :=
  match findMeeting db room_id with
  | none => (db, ⟨404, false, some "Meeting not found"⟩)
  | some meeting =>
    let ss := updateFirst (fun s => s.meeting_id == meeting.id)
      (fun s => { s with is_playing := is_playing, current_time := current_time })
      db.yt_sessions
    ({ db with yt_sessions := ss }, ⟨200, true, none⟩)

/-- `youtube_seek` (lines 1103-1124). -/
def youtube_seek (db : DB) (room_id : String) (current_time : Rat) :
    DB × SimpleResp :=
  match findMeeting db room_id with
  | none => (db, ⟨404, false, some "Meeting not found"⟩)
  | some meeting =>
    let ss := updateFirst (fun s => s.meeting_id == meeting.id)
      (fun s => { s with current_time := current_time }) db.yt_sessions
    ({ db with yt_sessions := ss }, ⟨200, true, none⟩)

/-- `youtube_volume` (lines 1126-1147). -/
def youtube_volume (db : DB) (room_id : String) (volume : Int) : DB × SimpleResp :=
  match findMeeting db room_id with
  | none => (db, ⟨404, false, some "Meeting not found"⟩)
  | some meeting =>
    let ss := updateFirst (fun s => s.meeting_id == meeting.id)
      (fun s => { s with volume := volume }) db.yt_sessions
    ({ db with yt_sessions := ss }, ⟨200, true, none⟩)

/-- `youtube_add_to_playlist` (lines 1149-1184): get-or-create, then append
the entry unless a playlist entry already has this video id. -/
def youtube_add_to_playlist (db : DB) (room_id : String) (video_id : Option String)
    (video_title : String) (ts : Nat) : DB × SimpleResp :=
  match findMeeting db room_id with
  | none => (db, ⟨404, false, some "Meeting not found"⟩)
  | some meeting =>
    match findSession db meeting.id with
    | some _ =>
      let ss := updateFirst (fun s => s.meeting_id == meeting.id)
        (fun s =>
          if s.playlist.any (fun v => v.id == video_id) then s
          else { s with playlist := s.playlist ++ [⟨video_id, video_title, ts⟩] })
        db.yt_sessions
      ({ db with yt_sessions := ss }, ⟨200, true, none⟩)
    | none =>
      let fresh : YouTubeSession :=
        ⟨db.next_yt_session_id, meeting.id, none, none, false, 0, 100,
         [⟨video_id, video_title, ts⟩]⟩
      ({ db with yt_sessions := db.yt_sessions ++ [fresh],
                 next_yt_session_id := db.next_yt_session_id + 1 },
       ⟨200, true, none⟩)

/-- `youtube_remove_from_playlist` (lines 1186-1209): filter the playlist of
the existing session. -/
def youtube_remove_from_playlist (db : DB) (room_id : String)
    (video_id : Option String) : DB × SimpleResp :=
  match findMeeting db room_id with
  | none => (db, ⟨404, false, some "Meeting not found"⟩)
  | some meeting =>
    let ss := updateFirst (fun s => s.meeting_id == meeting.id)
      (fun s => { s with playlist := s.playlist.filter (fun v => !(v.id == video_id)) })
      db.yt_sessions
    ({ db with yt_sessions := ss }, ⟨200, true, none⟩)

/-! ### The operation alphabet.
One constructor per handler that performs any `db.session` write
(`add`, `delete`, bulk `update`/`delete`, or a commit after mutating a
fetched row).  Every remaining handler of src/app.py is read-only: it only
runs queries and renders a page or a JSON body, so it cannot change any
table.  Each constructor carries the request parameters together with the
handler's nondeterministic inputs. -/

inductive Op where
  | createMtg (title description date time new_room_id : String)
      (env : QrEnv) (qr_ts : String) (ts : Nat)
  | genQr (room_id : String) (env : QrEnv) (qr_ts : String)
  | mtgLinks (room_id : String) (env : QrEnv) (qr_ts : String) (cached : Bool)
  | createJoinReq (room_id : String) (now : DateTime) (new_requester : String) (ts : Nat)
  | handleJoinReq (request_id : Nat) (action : String) (ts : Nat)
  | batchAccept (room_id : String) (ids : List Nat) (ts : Nat)
  | batchReject (room_id : String) (ids : List Nat) (ts : Nat)
  | clearRejectedOne (room_id : String) (requester_id : Option String)
  | clearRejectedAll (room_id : String)
  | sendMsg (room_id sender text : String) (is_image : Bool) (ts : Nat)
  | uploadImg (room_id filename : String) (ts : Nat)
  | deleteImg (image_id : Nat)
  | endMtg (room_id : String)
  | ytGetSession (room_id : String)
  | ytLoad (room_id : String) (video_id : Option String) (video_title : String)
  | ytPlay (room_id : String) (is_playing : Bool) (current_time : Rat)
  | ytSeek (room_id : String) (current_time : Rat)
  | ytVolume (room_id : String) (volume : Int)
  | ytAdd (room_id : String) (video_id : Option String) (video_title : String) (ts : Nat)
  | ytRemove (room_id : String) (video_id : Option String)
deriving DecidableEq, Repr

/-- The database produced by one handler invocation. -/
def Op.apply (db : DB) : Op → DB
  | .createMtg t d da ti rid env qts ts => (create_meeting db t d da ti rid env qts ts).1
  | .genQr rid env qts => (api_generate_qr db rid env qts).1
  | .mtgLinks rid env qts c => (meeting_links db rid env qts c).1
  | .createJoinReq rid now rq ts => (create_join_request db rid now rq ts).1
  | .handleJoinReq reqid act ts => (handle_join_request db reqid act ts).1
  | .batchAccept rid ids ts => (batch_accept_requests db rid ids ts).1
  | .batchReject rid ids ts => (batch_reject_requests db rid ids ts).1
  | .clearRejectedOne rid rq => (clear_rejected_request db rid rq).1
  | .clearRejectedAll rid => (clear_rejected_requests db rid).1
  | .sendMsg rid s t im ts => (send_message db rid s t im ts).1
  | .uploadImg rid f ts => (upload_image db rid f ts).1
  | .deleteImg iid => (delete_image db iid).1
  | .endMtg rid => (end_meeting db rid).1
  | .ytGetSession rid => (get_youtube_session db rid).1
  | .ytLoad rid v t => (youtube_load_video db rid v t).1
  | .ytPlay rid p c => (youtube_play db rid p c).1
  | .ytSeek rid c => (youtube_seek db rid c).1
  | .ytVolume rid v => (youtube_volume db rid v).1
  | .ytAdd rid v t ts => (youtube_add_to_playlist db rid v t ts).1
  | .ytRemove rid v => (youtube_remove_from_playlist db rid v).1

/-- Whether the operation is a `send_message` request. -/
def Op.isSendMsg : Op → Bool
  | .sendMsg _ _ _ _ _ => true
  | _ => false

/-! ### A concrete database state, used to evaluate the theorems below on
explicit inputs. -/

/-- An active meeting scheduled for 2025-01-01 19:00. -/
def exMeeting : Meeting :=
  ⟨1, "room1", "Date Night", "", "2025-01-01", "19:00", HARDCODED_PASSWORD,
   true, none, 0⟩

/-- A pending join request of `exMeeting`. -/
def exJr : JoinRequest := ⟨5, 1, "req-uuid-1", "pending", 3, 3⟩

/-- A pre-existing chat message of `exMeeting`. -/
def exMsg : Message := ⟨1, 1, "Host", "hi", false, 2⟩

/-- Two gallery images of `exMeeting`, stored oldest-first. -/
def exImg1 : GalleryImage := ⟨1, 1, "uploads/room1/a.png", 5⟩

def exImg2 : GalleryImage := ⟨2, 1, "uploads/room1/b.png", 9⟩

/-- A watch-together session of `exMeeting` in a non-default state. -/
def exSession : YouTubeSession :=
  ⟨1, 1, some "vid0", some "Old video", true, 37, 55, []⟩

def exDB : DB :=
  ⟨[exMeeting], [exMsg], [exJr], [exImg1, exImg2], [exSession], 2, 2, 6, 3, 2⟩

/-- An inactive meeting scheduled in the future (2031-01-01 19:00). -/
def inactiveMeeting : Meeting :=
  ⟨1, "roomX", "Future", "", "2031-01-01", "19:00", HARDCODED_PASSWORD,
   false, none, 0⟩

def inactiveDB : DB := ⟨[inactiveMeeting], [], [], [], [], 2, 1, 1, 1, 1⟩

/-- A clock value after `exMeeting`'s schedule and before `inactiveMeeting`'s. -/
def exNowAfter : DateTime := ⟨2026, 10, 12, 12, 0, 0, 0⟩

/-- A clock value before `exMeeting`'s schedule. -/
def exNowBefore : DateTime := ⟨2020, 1, 1, 0, 0, 0, 0⟩

/-! ### Generic lemmas about the row-list combinators. -/

lemma mem_removeFirst_of_not {α} (p : α → Bool) :
    ∀ (l : List α) (a : α), a ∈ l → p a = false → a ∈ removeFirst p l
  | [], a, ha, _ => absurd ha (List.not_mem_nil a)
  | x :: rest, a, ha, hp => by
    unfold removeFirst
    cases hx : p x with
    | true =>
      simp only [hx, if_true]
      rcases List.mem_cons.mp ha with h | h
      · rw [h, hx] at hp; cases hp
      · exact h
    | false =>
      simp only [hx, Bool.false_eq_true, if_false]
      rcases List.mem_cons.mp ha with h | h
      · exact h ▸ List.mem_cons_self x _
      · exact List.mem_cons_of_mem x (mem_removeFirst_of_not p rest a h hp)

lemma exists_mem_updateFirst_id {α} (p : α → Bool) (f : α → α) (idf : α → Nat)
    (hf : ∀ x, idf (f x) = idf x) :
    ∀ (l : List α) (a : α), a ∈ l → ∃ b ∈ updateFirst p f l, idf b = idf a
  | [], a, ha => absurd ha (List.not_mem_nil a)
  | x :: rest, a, ha => by
    unfold updateFirst
    cases hx : p x with
    | true =>
      simp only [hx, if_true]
      rcases List.mem_cons.mp ha with h | h
      · exact ⟨f x, List.mem_cons_self _ _, h ▸ hf x⟩
      · exact ⟨a, List.mem_cons_of_mem _ h, rfl⟩
    | false =>
      simp only [hx, Bool.false_eq_true, if_false]
      rcases List.mem_cons.mp ha with h | h
      · exact ⟨x, List.mem_cons_self _ _, by rw [h]⟩
      · obtain ⟨b, hb, hid⟩ := exists_mem_updateFirst_id p f idf hf rest a h
        exact ⟨b, List.mem_cons_of_mem _ hb, hid⟩


lemma exists_mem_map_id (f : JoinRequest → JoinRequest)
    (hf : ∀ x, (f x).id = x.id) {l : List JoinRequest} {r : JoinRequest}
    (hr : r ∈ l) : ∃ b ∈ l.map f, b.id = r.id :=
  ⟨f r, List.mem_map_of_mem f hr, hf r⟩

/-- Claim C7: Message rows are append-only.  For every database state and
every exposed operation, the messages table after the operation is either
unchanged or extended by exactly one appended row, and an extension happens
only for a send-message request; in particular no operation ever modifies or
deletes an existing Message row. -/
theorem claim_C7_messages_append_only (db : DB) (op : Op) :
    (op.apply db).messages = db.messages ∨
      ∃ msg, (op.apply db).messages = db.messages ++ [msg] ∧ op.isSendMsg = true := by
  cases op with
  | createMtg t d da ti rid env qts ts => exact Or.inl rfl
  | genQr rid env qts =>
    left
    simp only [Op.apply]
    unfold api_generate_qr
    cases findMeeting db rid with
    | none => rfl
    | some m => dsimp only; split <;> rfl
  | mtgLinks rid env qts c =>
    left
    simp only [Op.apply]
    unfold meeting_links
    cases findMeeting db rid with
    | none => rfl
    | some m =>
      dsimp only
      split
      · rfl
      · split <;> rfl
  | createJoinReq rid now rq ts =>
    left
    simp only [Op.apply]
    unfold create_join_request
    cases findMeeting db rid with
    | none => rfl
    | some m =>
      dsimp only
      split
      · rfl
      · split <;> rfl
  | handleJoinReq reqid act ts =>
    left
    simp only [Op.apply]
    unfold handle_join_request
    cases db.join_requests.find? (fun r => r.id == reqid) with
    | none => rfl
    | some jr => dsimp only; split <;> rfl
  | batchAccept rid ids ts =>
    left
    simp only [Op.apply]
    unfold batch_accept_requests
    cases findMeeting db rid with
    | none => rfl
    | some m => dsimp only; split <;> rfl
  | batchReject rid ids ts =>
    left
    simp only [Op.apply]
    unfold batch_reject_requests
    cases findMeeting db rid with
    | none => rfl
    | some m => dsimp only; split <;> rfl
  | clearRejectedOne rid rq =>
    left
    simp only [Op.apply]
    unfold clear_rejected_request
    cases findMeeting db rid with
    | none => rfl
    | some m =>
      cases rq with
      | none => rfl
      | some q =>
        dsimp only
        cases db.join_requests.find? (fun r =>
            r.meeting_id == m.id && r.requester == q && r.status == "rejected") <;> rfl
  | clearRejectedAll rid =>
    left
    simp only [Op.apply]
    unfold clear_rejected_requests
    cases findMeeting db rid <;> rfl
  | sendMsg rid s t im ts =>
    simp only [Op.apply]
    unfold send_message
    cases findMeeting db rid with
    | none => exact Or.inl rfl
    | some m => exact Or.inr ⟨_, rfl, rfl⟩
  | uploadImg rid f ts =>
    left
    simp only [Op.apply]
    unfold upload_image
    cases findMeeting db rid <;> rfl
  | deleteImg iid =>
    left
    simp only [Op.apply]
    unfold delete_image
    cases db.gallery_images.find? (fun i => i.id == iid) <;> rfl
  | endMtg rid =>
    left
    simp only [Op.apply]
    unfold end_meeting
    cases findMeeting db rid <;> rfl
  | ytGetSession rid =>
    left
    simp only [Op.apply]
    unfold get_youtube_session
    cases findMeeting db rid with
    | none => rfl
    | some m => dsimp only; cases findSession db m.id <;> rfl
  | ytLoad rid v t =>
    left
    simp only [Op.apply]
    unfold youtube_load_video
    cases findMeeting db rid with
    | none => rfl
    | some m => dsimp only; cases findSession db m.id <;> rfl
  | ytPlay rid p c =>
    left
    simp only [Op.apply]
    unfold youtube_play
    cases findMeeting db rid <;> rfl
  | ytSeek rid c =>
    left
    simp only [Op.apply]
    unfold youtube_seek
    cases findMeeting db rid <;> rfl
  | ytVolume rid v =>
    left
    simp only [Op.apply]
    unfold youtube_volume
    cases findMeeting db rid <;> rfl
  | ytAdd rid v t ts =>
    left
    simp only [Op.apply]
    unfold youtube_add_to_playlist
    cases findMeeting db rid with
    | none => rfl
    | some m => dsimp only; cases findSession db m.id <;> rfl
  | ytRemove rid v =>
    left
    simp only [Op.apply]
    unfold youtube_remove_from_playlist
    cases findMeeting db rid <;> rfl

/-- Claim C6: a JoinRequest row can disappear only while its status is
`rejected`.  For every database state, every exposed operation and every
join-request row whose status is not `rejected`, a row with the same primary
key is still present after the operation: the individual and bulk clear
endpoints filter on status `rejected`, and no other handler deletes join
requests, so pending and accepted requests are never deleted. -/
theorem claim_C6_only_rejected_requests_deleted (db : DB) (op : Op)
    (r : JoinRequest) (hr : r ∈ db.join_requests) (hst : r.status ≠ "rejected") :
    ∃ b ∈ (op.apply db).join_requests, b.id = r.id := by
  cases op with
  | createMtg t d da ti rid env qts ts => exact ⟨r, hr, rfl⟩
  | genQr rid env qts =>
    simp only [Op.apply]
    unfold api_generate_qr
    cases findMeeting db rid with
    | none => exact ⟨r, hr, rfl⟩
    | some m =>
      dsimp only
      split <;> exact ⟨r, hr, rfl⟩
  | mtgLinks rid env qts c =>
    simp only [Op.apply]
    unfold meeting_links
    cases findMeeting db rid with
    | none => exact ⟨r, hr, rfl⟩
    | some m =>
      dsimp only
      split
      · exact ⟨r, hr, rfl⟩
      · split <;> exact ⟨r, hr, rfl⟩
  | createJoinReq rid now rq ts =>
    simp only [Op.apply]
    unfold create_join_request
    cases findMeeting db rid with
    | none => exact ⟨r, hr, rfl⟩
    | some m =>
      dsimp only
      split
      · exact ⟨r, hr, rfl⟩
      · split
        · exact ⟨r, hr, rfl⟩
        · exact ⟨r, List.mem_append_left _ hr, rfl⟩
  | handleJoinReq reqid act ts =>
    simp only [Op.apply]
    unfold handle_join_request
    cases db.join_requests.find? (fun x => x.id == reqid) with
    | none => exact ⟨r, hr, rfl⟩
    | some jr =>
      dsimp only
      split
      · exact exists_mem_map_id _ (fun x => by split <;> rfl) hr
      · exact ⟨r, hr, rfl⟩
  | batchAccept rid ids ts =>
    simp only [Op.apply]
    unfold batch_accept_requests
    cases findMeeting db rid with
    | none => exact ⟨r, hr, rfl⟩
    | some m =>
      dsimp only
      split
      · exact ⟨r, hr, rfl⟩
      · exact exists_mem_map_id _ (fun x => by split <;> rfl) hr
  | batchReject rid ids ts =>
    simp only [Op.apply]
    unfold batch_reject_requests
    cases findMeeting db rid with
    | none => exact ⟨r, hr, rfl⟩
    | some m =>
      dsimp only
      split
      · exact ⟨r, hr, rfl⟩
      · exact exists_mem_map_id _ (fun x => by split <;> rfl) hr
  | clearRejectedOne rid rq =>
    simp only [Op.apply]
    unfold clear_rejected_request
    cases findMeeting db rid with
    | none => exact ⟨r, hr, rfl⟩
    | some m =>
      cases rq with
      | none => exact ⟨r, hr, rfl⟩
      | some q =>
        dsimp only
        cases db.join_requests.find? (fun x =>
            x.meeting_id == m.id && x.requester == q && x.status == "rejected") with
        | none => exact ⟨r, hr, rfl⟩
        | some jr =>
          exact ⟨r, mem_removeFirst_of_not _ _ _ hr (by simp [hst]), rfl⟩
  | clearRejectedAll rid =>
    simp only [Op.apply]
    unfold clear_rejected_requests
    cases findMeeting db rid with
    | none => exact ⟨r, hr, rfl⟩
    | some m =>
      exact ⟨r, List.mem_filter.mpr ⟨hr, by simp [hst]⟩, rfl⟩
  | sendMsg rid s t im ts =>
    simp only [Op.apply]
    unfold send_message
    cases findMeeting db rid <;> exact ⟨r, hr, rfl⟩
  | uploadImg rid f ts =>
    simp only [Op.apply]
    unfold upload_image
    cases findMeeting db rid <;> exact ⟨r, hr, rfl⟩
  | deleteImg iid =>
    simp only [Op.apply]
    unfold delete_image
    cases db.gallery_images.find? (fun i => i.id == iid) <;> exact ⟨r, hr, rfl⟩
  | endMtg rid =>
    simp only [Op.apply]
    unfold end_meeting
    cases findMeeting db rid <;> exact ⟨r, hr, rfl⟩
  | ytGetSession rid =>
    simp only [Op.apply]
    unfold get_youtube_session
    cases findMeeting db rid with
    | none => exact ⟨r, hr, rfl⟩
    | some m => dsimp only; cases findSession db m.id <;> exact ⟨r, hr, rfl⟩
  | ytLoad rid v t =>
    simp only [Op.apply]
    unfold youtube_load_video
    cases findMeeting db rid with
    | none => exact ⟨r, hr, rfl⟩
    | some m => dsimp only; cases findSession db m.id <;> exact ⟨r, hr, rfl⟩
  | ytPlay rid p c =>
    simp only [Op.apply]
    unfold youtube_play
    cases findMeeting db rid <;> exact ⟨r, hr, rfl⟩
  | ytSeek rid c =>
    simp only [Op.apply]
    unfold youtube_seek
    cases findMeeting db rid <;> exact ⟨r, hr, rfl⟩
  | ytVolume rid v =>
    simp only [Op.apply]
    unfold youtube_volume
    cases findMeeting db rid <;> exact ⟨r, hr, rfl⟩
  | ytAdd rid v t ts =>
    simp only [Op.apply]
    unfold youtube_add_to_playlist
    cases findMeeting db rid with
    | none => exact ⟨r, hr, rfl⟩
    | some m => dsimp only; cases findSession db m.id <;> exact ⟨r, hr, rfl⟩
  | ytRemove rid v =>
    simp only [Op.apply]
    unfold youtube_remove_from_playlist
    cases findMeeting db rid <;> exact ⟨r, hr, rfl⟩

lemma find?_updateFirst_self {α} (p : α → Bool) (f : α → α)
    (hp : ∀ x, p (f x) = p x) :
    ∀ (l : List α) (a : α), l.find? p = some a →
      (updateFirst p f l).find? p = some (f a)
  | [], _, h => by cases h
  | x :: rest, a, h => by
    unfold updateFirst
    cases hx : p x with
    | true =>
      rw [List.find?_cons_of_pos _ hx] at h
      injection h with h
      subst h
      simp only [hx, if_true]
      exact List.find?_cons_of_pos _ (by rw [hp, hx])
    | false =>
      rw [List.find?_cons_of_neg _ (by rw [hx]; exact Bool.false_ne_true)] at h
      simp only [hx, Bool.false_eq_true, if_false]
      rw [List.find?_cons_of_neg _ (by rw [hx]; exact Bool.false_ne_true)]
      exact find?_updateFirst_self p f hp rest a h

lemma find?_append_of_none {α} (p : α → Bool) (l : List α) (x : α)
    (hl : l.find? p = none) (hx : p x = true) : (l ++ [x]).find? p = some x := by
  induction l with
  | nil => exact List.find?_cons_of_pos _ hx
  | cons y ys ih =>
    have hy : ¬ p y = true := by
      intro hy
      rw [List.find?_cons_of_pos _ hy] at hl
      cases hl
    rw [List.find?_cons_of_neg _ hy] at hl
    rw [List.cons_append, List.find?_cons_of_neg _ hy]
    exact ih hl

/-- Claim C10: ending a meeting never fails.  `end_meeting` returns HTTP 200
with success for every room token; when the token matches a meeting, that
meeting's row afterwards has `is_active = false`; when it matches nothing,
the database is unchanged and no error is reported, whereas
`check_meeting_active` answers 404 for the same unknown token. -/
theorem claim_C10_end_meeting_always_succeeds (db : DB) (rid : String) :
    (end_meeting db rid).2 = ⟨200, true⟩ ∧
    (findMeeting db rid = none →
      (end_meeting db rid).1 = db ∧ (check_meeting_active db rid).http = 404) ∧
    (∀ m, findMeeting db rid = some m →
      findMeeting (end_meeting db rid).1 rid = some { m with is_active := false }) := by
  refine ⟨?_, ?_, ?_⟩
  · unfold end_meeting
    cases findMeeting db rid <;> rfl
  · intro h
    constructor
    · unfold end_meeting
      rw [h]
    · unfold check_meeting_active
      rw [h]
  · intro m hm
    have hm' : db.meetings.find? (fun x => x.room_id == rid) = some m := hm
    unfold end_meeting
    rw [hm]
    unfold findMeeting
    dsimp only
    exact find?_updateFirst_self (fun x => x.room_id == rid)
      (fun x => { x with is_active := false }) (fun x => rfl) db.meetings m hm'

/-- Claim C4: loading a video resets playback.  For every database state and
every prior state of the meeting's watch-together session (including the
lazily-created fresh session), a successful load sets the session's video id
and title to the supplied values, `current_time` to 0 and `is_playing` to
false; the response reports success. -/
theorem claim_C4_load_video_resets_playback (db : DB) (rid : String)
    (vid : Option String) (title : String) (m : Meeting)
    (hm : findMeeting db rid = some m) :
    (youtube_load_video db rid vid title).2 = ⟨200, true, none⟩ ∧
    ∃ s, findSession (youtube_load_video db rid vid title).1 m.id = some s ∧
      s.video_id = vid ∧ s.video_title = some title ∧
      s.is_playing = false ∧ s.current_time = 0 := by
  unfold youtube_load_video
  rw [hm]
  dsimp only
  cases hs : findSession db m.id with
  | some s0 =>
    dsimp only
    refine ⟨rfl, ?_⟩
    have hs' : db.yt_sessions.find? (fun s => s.meeting_id == m.id) = some s0 := hs
    refine ⟨{ s0 with video_id := vid, video_title := some title, is_playing := false, current_time := 0 }, ?_, rfl, rfl, rfl, rfl⟩
    unfold findSession
    dsimp only
    exact find?_updateFirst_self (fun s => s.meeting_id == m.id)
      (fun s => { s with video_id := vid, video_title := some title,
                         is_playing := false, current_time := 0 })
      (fun x => rfl) db.yt_sessions s0 hs'
  | none =>
    dsimp only
    refine ⟨rfl, ?_⟩
    have hs' : db.yt_sessions.find? (fun s => s.meeting_id == m.id) = none := hs
    refine ⟨⟨db.next_yt_session_id, m.id, vid, some title, false, 0, 100, []⟩,
      ?_, rfl, rfl, rfl, rfl⟩
    unfold findSession
    dsimp only
    exact find?_append_of_none (fun s => s.meeting_id == m.id) db.yt_sessions
      ⟨db.next_yt_session_id, m.id, vid, some title, false, 0, 100, []⟩
      hs' (by simp)

/-- Claim C5: the gallery listing is gated by the shared password.  For every
existing meeting, any `password` parameter other than the shared constant
(including an absent one) yields a 401 error with no images; the correct
password yields HTTP 200 and a permutation of exactly this meeting's images,
ordered by creation time descending (newest first). -/
theorem claim_C5_gallery_password_and_order (db : DB) (rid : String)
    (pw : Option String) (m : Meeting) (hm : findMeeting db rid = some m) :
    (pw ≠ some HARDCODED_PASSWORD →
      get_gallery_images db rid pw = ⟨401, some "Invalid password", []⟩) ∧
    (pw = some HARDCODED_PASSWORD →
      (get_gallery_images db rid pw).http = 200 ∧
      (get_gallery_images db rid pw).images.Perm
        (db.gallery_images.filter (fun i => i.meeting_id == m.id)) ∧
      (get_gallery_images db rid pw).images.Pairwise
        (fun a b => b.created_at ≤ a.created_at)) := by
  constructor
  · intro h
    unfold get_gallery_images
    rw [hm]
    dsimp only
    rw [if_pos h]
  · intro h
    unfold get_gallery_images
    rw [hm]
    dsimp only
    rw [if_neg (by simp [h])]
    refine ⟨rfl, ?_, ?_⟩
    · exact List.perm_insertionSort _ _
    · haveI : IsTotal GalleryImage (fun a b => b.created_at ≤ a.created_at) :=
        ⟨fun a b => le_total b.created_at a.created_at⟩
      haveI : IsTrans GalleryImage (fun a b => b.created_at ≤ a.created_at) :=
        ⟨fun _ _ _ hab hbc => le_trans hbc hab⟩
      exact List.sorted_insertionSort _ _

lemma send_message_found {db : DB} {rid : String} {m : Meeting}
    (hm : findMeeting db rid = some m) (s t : String) (im : Bool) (ts : Nat) :
    send_message db rid s t im ts =
      ({ db with messages := db.messages ++ [⟨db.next_message_id, m.id, s, t, im, ts⟩], next_message_id := db.next_message_id + 1 },
       ⟨200, none, some db.next_message_id⟩) := by
  unfold send_message
  rw [hm]

/-- Claim C3: the `since` cursor.  For every meeting, after posting two chat
messages in order, fetching the message list with `since` equal to the first
message's id returns exactly the rows with id strictly greater than `since`:
only the second message. -/
theorem claim_C3_since_cursor_returns_only_second (db : DB) (rid : String)
    (m : Meeting) (s1 t1 s2 t2 : String) (ts1 ts2 : Nat)
    (hm : findMeeting db rid = some m)
    (hwf : ∀ msg ∈ db.messages, msg.id < db.next_message_id) :
    (send_message db rid s1 t1 false ts1).2.message_id = some db.next_message_id ∧
    get_messages (send_message (send_message db rid s1 t1 false ts1).1 rid s2 t2 false ts2).1
        rid db.next_message_id =
      ⟨200, none, [⟨db.next_message_id + 1, m.id, s2, t2, false, ts2⟩]⟩ := by
  have h1 := send_message_found hm s1 t1 false ts1
  rw [h1]
  dsimp only
  refine ⟨rfl, ?_⟩
  have hm1 : findMeeting { db with messages := db.messages ++ [⟨db.next_message_id, m.id, s1, t1, false, ts1⟩], next_message_id := db.next_message_id + 1 } rid = some m := hm
  have h2 := send_message_found hm1 s2 t2 false ts2
  rw [h2]
  dsimp only
  unfold get_messages
  have hm2 : findMeeting { db with messages := db.messages ++ [⟨db.next_message_id, m.id, s1, t1, false, ts1⟩] ++ [⟨db.next_message_id + 1, m.id, s2, t2, false, ts2⟩], next_message_id := db.next_message_id + 1 + 1 } rid = some m := hm
  rw [hm2]
  dsimp only
  have hnil : db.messages.filter
      (fun msg : Message => msg.meeting_id == m.id && decide (db.next_message_id < msg.id)) = [] := by
    rw [List.filter_eq_nil_iff]
    intro a ha
    have hlt : ¬ db.next_message_id < a.id := Nat.not_lt.mpr (Nat.le_of_lt (hwf a ha))
    simp [hlt]
  rw [List.filter_append, List.filter_append, hnil]
  have hmsg1 : List.filter
      (fun msg : Message => msg.meeting_id == m.id && decide (db.next_message_id < msg.id))
      [⟨db.next_message_id, m.id, s1, t1, false, ts1⟩] = [] := by
    simp
  have hmsg2 : List.filter
      (fun msg : Message => msg.meeting_id == m.id && decide (db.next_message_id < msg.id))
      [⟨db.next_message_id + 1, m.id, s2, t2, false, ts2⟩] =
      [⟨db.next_message_id + 1, m.id, s2, t2, false, ts2⟩] := by
    simp
  rw [hmsg1, hmsg2]
  rfl

/-- Claim C2: accepting a join request is reflected immediately.  For every
existing join request (located, as the status endpoint does, as the first
row with its meeting and requester), the accept action sets its status to
`accepted` and reports success, and the status-check endpoint for the same
room and requester id then answers `accepted` with that request's id, with
no intervening operation. -/
theorem claim_C2_accept_then_status_accepted (db : DB) (rid : String)
    (ts : Nat) (m : Meeting) (r : JoinRequest)
    (hm : findMeeting db rid = some m)
    (hr : db.join_requests.find?
        (fun x => x.meeting_id == m.id && x.requester == r.requester) = some r) :
    (handle_join_request db r.id "accept" ts).2 = ⟨200, true, none⟩ ∧
    get_join_request_status (handle_join_request db r.id "accept" ts).1 rid
        (some r.requester) = ⟨200, none, some "accepted", some r.id⟩ := by
  have hrmem : r ∈ db.join_requests := List.mem_of_find?_eq_some hr
  have hsome : (db.join_requests.find? (fun x => x.id == r.id)).isSome :=
    List.find?_isSome.mpr ⟨r, hrmem, by simp⟩
  unfold handle_join_request
  cases hfid : db.join_requests.find? (fun x => x.id == r.id) with
  | none => rw [hfid] at hsome; cases hsome
  | some jr0 =>
    dsimp only
    rw [if_pos (by decide)]
    dsimp only
    refine ⟨rfl, ?_⟩
    unfold get_join_request_status
    have hm' : findMeeting { db with join_requests := db.join_requests.map (fun x => if x.id == r.id then { x with status := if "accept" == "accept" then "accepted" else "rejected", updated_at := ts } else x) } rid = some m := hm
    rw [hm']
    dsimp only
    rw [List.find?_map]
    have hpf : ((fun x : JoinRequest => x.meeting_id == m.id && x.requester == r.requester) ∘
        (fun x : JoinRequest => if x.id == r.id then { x with status := if "accept" == "accept" then "accepted" else "rejected", updated_at := ts } else x)) =
        (fun x : JoinRequest => x.meeting_id == m.id && x.requester == r.requester) := by
      funext x
      show (fun y : JoinRequest => y.meeting_id == m.id && y.requester == r.requester)
          (if x.id == r.id then { x with status := if "accept" == "accept" then "accepted" else "rejected", updated_at := ts } else x) = _
      split <;> rfl
    rw [hpf, hr]
    simp

/-- Claim C9: batch accept counts the submitted ids, not the matched rows.
For every existing meeting and non-empty submitted id list, the response is
HTTP 200 with `accepted_count` equal to the length of the submitted list,
even when some ids match no join request of the meeting; only rows of this
meeting whose id is in the list are updated to `accepted`, every other row
is kept unchanged. -/
theorem claim_C9_batch_accept_counts_submitted_ids (db : DB) (rid : String)
    (ids : List Nat) (ts : Nat) (m : Meeting)
    (hm : findMeeting db rid = some m) (hne : ids ≠ []) :
    (batch_accept_requests db rid ids ts).2 = ⟨200, none, some ids.length⟩ ∧
    (∀ r ∈ db.join_requests, r.id ∉ ids →
      r ∈ (batch_accept_requests db rid ids ts).1.join_requests) ∧
    (∀ r ∈ db.join_requests, r.meeting_id ≠ m.id →
      r ∈ (batch_accept_requests db rid ids ts).1.join_requests) ∧
    (∀ r ∈ db.join_requests, r.id ∈ ids → r.meeting_id = m.id →
      { r with status := "accepted", updated_at := ts } ∈
        (batch_accept_requests db rid ids ts).1.join_requests) := by
  unfold batch_accept_requests
  rw [hm]
  dsimp only
  rw [if_neg (by simp [hne])]
  dsimp only
  refine ⟨rfl, ?_, ?_, ?_⟩
  · intro r hrm hid
    have hc : ids.contains r.id = false := by simpa using hid
    have : (if ids.contains r.id && r.meeting_id == m.id then { r with status := "accepted", updated_at := ts } else r) = r := by
      rw [hc]
      rfl
    exact this ▸ List.mem_map_of_mem _ hrm
  · intro r hrm hmid
    have hc : (r.meeting_id == m.id) = false := by simpa using hmid
    have : (if ids.contains r.id && r.meeting_id == m.id then { r with status := "accepted", updated_at := ts } else r) = r := by
      rw [hc, Bool.and_false]
      rfl
    exact this ▸ List.mem_map_of_mem _ hrm
  · intro r hrm hid hmid
    have hc : ids.contains r.id = true := by simpa using hid
    have hc2 : (r.meeting_id == m.id) = true := by simpa using hmid
    have : (if ids.contains r.id && r.meeting_id == m.id then { r with status := "accepted", updated_at := ts } else r) = { r with status := "accepted", updated_at := ts } := by
      rw [hc, hc2]
      rfl
    exact this ▸ List.mem_map_of_mem _ hrm

/-- Claim C8: QR generation has exactly one fallback tier and never blocks
meeting creation.  Whenever the styled generator raises, the plain generator
is the one that answers; and when both raise, `create_meeting` still returns
HTTP 200 with the new room token and `qr_generated = false`, and the Meeting
row is present in the database (not rolled back). -/
theorem claim_C8_qr_fallback_never_blocks_creation (db : DB)
    (title description date time rid qts : String) (ts : Nat) (env : QrEnv) :
    (env.styled_fails = true →
      generate_meeting_qr env rid qts = generate_simple_qr env rid) ∧
    (env.styled_fails = true → env.simple_fails = true →
      (create_meeting db title description date time rid env qts ts).2 =
        ⟨200, rid, false, none⟩ ∧
      ∃ mtg ∈ (create_meeting db title description date time rid env qts ts).1.meetings,
        mtg.room_id = rid ∧ mtg.title = title ∧ mtg.is_active = true) := by
  constructor
  · intro h
    unfold generate_meeting_qr
    rw [if_pos h]
  · intro h1 h2
    have hq : generate_meeting_qr env rid qts = ⟨false, none, some "qr library failure"⟩ := by
      unfold generate_meeting_qr generate_simple_qr
      rw [if_pos h1, if_pos h2]
    unfold create_meeting
    rw [hq]
    dsimp only
    refine ⟨rfl, ?_⟩
    refine ⟨⟨db.next_meeting_id, rid, title, description, date, time, HARDCODED_PASSWORD, true, none, ts⟩, ?_, rfl, rfl, rfl⟩
    exact List.mem_append_right _ (List.mem_singleton.mpr rfl)

/-- Claim C1 counterexample: for an inactive meeting whose scheduled
date/time parses and lies strictly in the future of the clock, the join
request is rejected, but with the message `Meeting is not active`, not the
`Meeting has not started yet` message the claim asserts for every meeting. -/
theorem claim_C1_counterexample_inactive_meeting :
    parseMeetingDateTime inactiveMeeting.date inactiveMeeting.time =
        some ⟨2031, 1, 1, 19, 0, 0, 0⟩ ∧
    DateTime.leb ⟨2031, 1, 1, 19, 0, 0, 0⟩ exNowAfter = false ∧
    (create_join_request inactiveDB "roomX" exNowAfter "req-2" 7).2.http = 400 ∧
    (create_join_request inactiveDB "roomX" exNowAfter "req-2" 7).2.error =
        some "Meeting is not active" ∧
    (create_join_request inactiveDB "roomX" exNowAfter "req-2" 7).2.error ≠
        some "Meeting has not started yet" := by
  refine ⟨by decide, by decide, ?_, ?_, ?_⟩ <;> decide

/-- Claim C1 (amended): for every ACTIVE meeting whose stored date/time
strings parse under `%Y-%m-%d %H:%M`, a join request made while the parsed
schedule is strictly in the future is rejected with HTTP 400 and the message
`Meeting has not started yet` and the database is unchanged; a join request
made at or after the schedule appends a fresh join request with status
`pending` and returns HTTP 201.  (The original claim omitted the activity
condition on the rejection half: an inactive meeting is rejected with
`Meeting is not active` even when its schedule is in the future.) -/
theorem claim_C1_amended_join_request_timing (db : DB) (rid : String)
    (now : DateTime) (rq : String) (ts : Nat) (m : Meeting) (dt : DateTime)
    (hm : findMeeting db rid = some m) (hact : m.is_active = true)
    (hdt : parseMeetingDateTime m.date m.time = some dt) :
    (DateTime.leb dt now = false →
      create_join_request db rid now rq ts =
        (db, ⟨400, some "Meeting has not started yet", none, none⟩)) ∧
    (DateTime.leb dt now = true →
      (create_join_request db rid now rq ts).2 =
        ⟨201, none, some db.next_join_request_id, some rq⟩ ∧
      (create_join_request db rid now rq ts).1.join_requests =
        db.join_requests ++ [⟨db.next_join_request_id, m.id, rq, "pending", ts, ts⟩]) := by
  have hstart : is_meeting_started m now = DateTime.leb dt now := by
    unfold is_meeting_started
    rw [hdt]
  constructor
  · intro hlt
    unfold create_join_request
    rw [hm]
    dsimp only
    rw [if_neg (by rw [hact]; simp)]
    rw [if_pos (by rw [hstart, hlt])]
  · intro hge
    unfold create_join_request
    rw [hm]
    dsimp only
    rw [if_neg (by rw [hact]; simp)]
    rw [if_neg (by rw [hstart, hge]; simp)]
    exact ⟨rfl, rfl⟩

/-- Evaluation of the amended C1 theorem on the concrete database: before the
schedule the request is rejected with the `not started` message and the
database is unchanged; after the schedule it is created with HTTP 201. -/
theorem claim_C1_amended_witness :
    findMeeting exDB "room1" = some exMeeting ∧
    exMeeting.is_active = true ∧
    parseMeetingDateTime exMeeting.date exMeeting.time = some ⟨2025, 1, 1, 19, 0, 0, 0⟩ ∧
    create_join_request exDB "room1" exNowBefore "req-3" 8 =
      (exDB, ⟨400, some "Meeting has not started yet", none, none⟩) ∧
    (create_join_request exDB "room1" exNowAfter "req-3" 8).2 =
      ⟨201, none, some 6, some "req-3"⟩ :=
  ⟨rfl, rfl, by decide,
   (claim_C1_amended_join_request_timing exDB "room1" exNowBefore "req-3" 8 exMeeting
      ⟨2025, 1, 1, 19, 0, 0, 0⟩ rfl rfl (by decide)).1 (by decide),
   ((claim_C1_amended_join_request_timing exDB "room1" exNowAfter "req-3" 8 exMeeting
      ⟨2025, 1, 1, 19, 0, 0, 0⟩ rfl rfl (by decide)).2 (by decide)).1⟩

/-- Evaluation of the C2 theorem on the concrete database. -/
theorem claim_C2_witness :
    findMeeting exDB "room1" = some exMeeting ∧
    exDB.join_requests.find? (fun x => x.meeting_id == exMeeting.id && x.requester == exJr.requester) = some exJr ∧
    (handle_join_request exDB exJr.id "accept" 9).2 = ⟨200, true, none⟩ ∧
    get_join_request_status (handle_join_request exDB exJr.id "accept" 9).1 "room1"
      (some exJr.requester) = ⟨200, none, some "accepted", some exJr.id⟩ :=
  ⟨rfl, by decide,
   (claim_C2_accept_then_status_accepted exDB "room1" 9 exMeeting exJr rfl (by decide)).1,
   (claim_C2_accept_then_status_accepted exDB "room1" 9 exMeeting exJr rfl (by decide)).2⟩

/-- Evaluation of the C3 theorem on the concrete database. -/
theorem claim_C3_witness :
    (∀ msg ∈ exDB.messages, msg.id < exDB.next_message_id) ∧
    (send_message exDB "room1" "A" "hello" false 10).2.message_id = some 2 ∧
    get_messages (send_message (send_message exDB "room1" "A" "hello" false 10).1 "room1" "B" "world" false 11).1 "room1" 2 =
      ⟨200, none, [⟨3, 1, "B", "world", false, 11⟩]⟩ :=
  ⟨by decide,
   (claim_C3_since_cursor_returns_only_second exDB "room1" exMeeting "A" "hello" "B" "world" 10 11 rfl (by decide)).1,
   (claim_C3_since_cursor_returns_only_second exDB "room1" exMeeting "A" "hello" "B" "world" 10 11 rfl (by decide)).2⟩

/-- Evaluation of the C4 theorem on the concrete database, whose session is
playing `vid0` at playback position 37. -/
theorem claim_C4_witness :
    findMeeting exDB "room1" = some exMeeting ∧
    (youtube_load_video exDB "room1" (some "vid9") "New video").2 = ⟨200, true, none⟩ ∧
    ∃ s, findSession (youtube_load_video exDB "room1" (some "vid9") "New video").1 exMeeting.id = some s ∧
      s.video_id = some "vid9" ∧ s.video_title = some "New video" ∧
      s.is_playing = false ∧ s.current_time = 0 :=
  ⟨rfl,
   (claim_C4_load_video_resets_playback exDB "room1" (some "vid9") "New video" exMeeting rfl).1,
   (claim_C4_load_video_resets_playback exDB "room1" (some "vid9") "New video" exMeeting rfl).2⟩

/-- Evaluation of the C5 theorem on the concrete database. -/
theorem claim_C5_witness :
    findMeeting exDB "room1" = some exMeeting ∧
    get_gallery_images exDB "room1" (some "wrong") = ⟨401, some "Invalid password", []⟩ ∧
    (get_gallery_images exDB "room1" (some HARDCODED_PASSWORD)).http = 200 ∧
    (get_gallery_images exDB "room1" (some HARDCODED_PASSWORD)).images.Pairwise
      (fun a b => b.created_at ≤ a.created_at) :=
  ⟨rfl,
   (claim_C5_gallery_password_and_order exDB "room1" (some "wrong") exMeeting rfl).1 (by decide),
   ((claim_C5_gallery_password_and_order exDB "room1" (some HARDCODED_PASSWORD) exMeeting rfl).2 rfl).1,
   ((claim_C5_gallery_password_and_order exDB "room1" (some HARDCODED_PASSWORD) exMeeting rfl).2 rfl).2.2⟩

/-- Evaluation of the C6 theorem on the concrete database: the pending
request survives the bulk clear of rejected requests. -/
theorem claim_C6_witness :
    exJr ∈ exDB.join_requests ∧ exJr.status ≠ "rejected" ∧
    ∃ b ∈ (Op.apply exDB (Op.clearRejectedAll "room1")).join_requests, b.id = exJr.id :=
  ⟨by decide, by decide,
   claim_C6_only_rejected_requests_deleted exDB (Op.clearRejectedAll "room1") exJr
     (by decide) (by decide)⟩

/-- Evaluation of the C8 theorem with both QR generators failing. -/
theorem claim_C8_witness :
    generate_meeting_qr ⟨true, true⟩ "roomZ" "t0" = generate_simple_qr ⟨true, true⟩ "roomZ" ∧
    (create_meeting exDB "T" "" "2025-01-01" "19:00" "roomZ" ⟨true, true⟩ "t0" 12).2 =
      ⟨200, "roomZ", false, none⟩ ∧
    ∃ mtg ∈ (create_meeting exDB "T" "" "2025-01-01" "19:00" "roomZ" ⟨true, true⟩ "t0" 12).1.meetings,
      mtg.room_id = "roomZ" ∧ mtg.title = "T" ∧ mtg.is_active = true :=
  ⟨(claim_C8_qr_fallback_never_blocks_creation exDB "T" "" "2025-01-01" "19:00" "roomZ" "t0" 12 ⟨true, true⟩).1 rfl,
   ((claim_C8_qr_fallback_never_blocks_creation exDB "T" "" "2025-01-01" "19:00" "roomZ" "t0" 12 ⟨true, true⟩).2 rfl rfl).1,
   ((claim_C8_qr_fallback_never_blocks_creation exDB "T" "" "2025-01-01" "19:00" "roomZ" "t0" 12 ⟨true, true⟩).2 rfl rfl).2⟩

/-- Evaluation of the C9 theorem on the concrete database: one submitted id
matches the pending request, the other matches nothing, and the reported
count is still 2. -/
theorem claim_C9_witness :
    findMeeting exDB "room1" = some exMeeting ∧
    ([5, 99] : List Nat) ≠ [] ∧
    (batch_accept_requests exDB "room1" [5, 99] 13).2 = ⟨200, none, some 2⟩ ∧
    { exJr with status := "accepted", updated_at := 13 } ∈
      (batch_accept_requests exDB "room1" [5, 99] 13).1.join_requests :=
  ⟨rfl, by decide,
   (claim_C9_batch_accept_counts_submitted_ids exDB "room1" [5, 99] 13 exMeeting rfl (by decide)).1,
   (claim_C9_batch_accept_counts_submitted_ids exDB "room1" [5, 99] 13 exMeeting rfl (by decide)).2.2.2
     exJr (by decide) (by decide) (by decide)⟩

/-- Evaluation of the C10 theorem on the concrete database, at a matching
token and at an unknown one. -/
theorem claim_C10_witness :
    (end_meeting exDB "room1").2 = ⟨200, true⟩ ∧
    findMeeting (end_meeting exDB "room1").1 "room1" = some { exMeeting with is_active := false } ∧
    (end_meeting exDB "nope").1 = exDB ∧
    (check_meeting_active exDB "nope").http = 404 :=
  ⟨(claim_C10_end_meeting_always_succeeds exDB "room1").1,
   (claim_C10_end_meeting_always_succeeds exDB "room1").2.2 exMeeting rfl,
   ((claim_C10_end_meeting_always_succeeds exDB "nope").2.1 (by decide)).1,
   ((claim_C10_end_meeting_always_succeeds exDB "nope").2.1 (by decide)).2⟩
